import Mathlib

/-!
Verification of the form-field classification and answer-selection engine of
the `job_find` repository (`auto_apply_enhanced.py`, `job_monitor.py`).

The Python source is shallowly embedded: each handler becomes a pure Lean
function on a `Profile` record (all keys optional, mirroring `dict.get` with
its documented defaults), form controls become records of label/option/value
strings, and the page-navigation loops become fuel-bounded recursions whose
emitted click commands are collected in a list.  Python's `sub in s`
substring test is embedded as `pyIn`, and `str.lower()` as `pyLower`
(all strings involved are ASCII).
-/

/-- Python's `sub in s` on lists of characters: `sub` occurs contiguously. -/
def infixOf (sub : List Char) : List Char → Bool
  | [] => sub.isPrefixOf []
  | c :: rest => sub.isPrefixOf (c :: rest) || infixOf sub rest

/-- Python's `sub in s` substring test for strings. -/
def pyIn (sub s : String) : Bool := infixOf sub.toList s.toList

/-- Python's `str.lower()` (all strings involved are ASCII). -/
def pyLower (s : String) : String := String.mk (s.toList.map Char.toLower)

/-- Python's `for i, opt in enumerate(options): if pred(opt): ... return`:
index of the first element satisfying `pred`. -/
def find_index (pred : String → Bool) : List String → Option Nat
  | [] => none
  | o :: rest =>
    if pred o then some 0
    else (find_index pred rest).map (fun n => n + 1)

/-- The profile record (`profile.json` contents).  Every field is optional;
`Option.getD` mirrors `self.profile.get(key, default)`. -/
structure Profile where
  phone : Option String := none
  total_years_experience : Option Nat := none
  python_years : Option Nat := none
  finance_years : Option Nat := none
  trading_years : Option Nat := none
  operations_years : Option Nat := none
  education_level : Option String := none
  work_authorized : Option Bool := none
  visa_status : Option String := none
  gender_disclosure : Option Bool := none
  gender : Option String := none
  ethnicity_disclosure : Option Bool := none
  ethnicity : Option String := none
  veteran : Option Bool := none
  willing_to_relocate : Option Bool := none
  open_to_remote : Option Bool := none
  auto_submit : Option Bool := none
  linkedin_url : Option String := none
  portfolio_url : Option String := none
  github_url : Option String := none

/-- A profile with no keys set (every `get` falls back to its default). -/
def Profile.empty : Profile := {}

/-- `handle_phone_number`: digits of `profile.get('phone', '')`, the value
typed into the field. -/
def handle_phone_number (p : Profile) : String :=
  String.mk ((p.phone.getD "").toList.filter Char.isDigit)

/-- `handle_years_experience`: the `experience_map` dict in insertion order;
the value filled is `str(years)` for the first key contained in the
lower-cased question, else `str(experience_map['total'])`. -/
def handle_years_experience (p : Profile) (question_text : String) : String :=
  let experience_map : List (String × Nat) :=
    [("total", p.total_years_experience.getD 3),
     ("python", p.python_years.getD 2),
     ("finance", p.finance_years.getD 3),
     ("trading", p.trading_years.getD 2),
     ("operations", p.operations_years.getD 2)]
  let question_lower := pyLower question_text
  match experience_map.find? (fun kv => pyIn kv.1 question_lower) with
  | some kv => toString kv.2
  | none => toString (p.total_years_experience.getD 3)

/- Keyword matchers: the conditions of the `if` blocks in `handle_dropdown`
and `handle_radio_buttons`, applied to the lower-cased question text. -/

def matchEducation (q : String) : Bool := pyIn "education" q || pyIn "degree" q

def matchWorkAuth (q : String) : Bool := pyIn "authorized" q || pyIn "sponsorship" q

def matchVisa (q : String) : Bool := pyIn "visa" q

def matchGender (q : String) : Bool := pyIn "gender" q

def matchEthnicity (q : String) : Bool := pyIn "race" q || pyIn "ethnicity" q

def matchVeteran (q : String) : Bool := pyIn "veteran" q

def matchDisability (q : String) : Bool := pyIn "disability" q || pyIn "disabled" q

def matchRelocation (q : String) : Bool := pyIn "relocate" q || pyIn "relocation" q

def matchRemote (q : String) : Bool := pyIn "remote" q

/- Per-category option-selection policies of `handle_dropdown`.  Each takes
the already lower-cased option texts (the source lowers them all once:
`options = [opt.text.lower() for opt in select.options]`). -/

def educationPolicy (p : Profile) (options : List String) : Option Nat :=
  let target := pyLower (p.education_level.getD "bachelor")
  find_index (fun opt => pyIn target opt) options

def workAuthPolicy (p : Profile) (options : List String) : Option Nat :=
  if p.work_authorized.getD true then
    find_index (fun opt => pyIn "yes" opt || pyIn "authorized" opt) options
  else none

def visaPolicy (p : Profile) (options : List String) : Option Nat :=
  let visa_status := pyLower (p.visa_status.getD "citizen")
  find_index (fun opt => pyIn visa_status opt || pyIn "citizen" opt) options

def genderPolicy (p : Profile) (options : List String) : Option Nat :=
  if p.gender_disclosure.getD false then
    find_index (fun opt => pyIn (pyLower (p.gender.getD "")) opt) options
  else
    find_index (fun opt => pyIn "prefer not" opt || pyIn "decline" opt) options

def ethnicityPolicy (p : Profile) (options : List String) : Option Nat :=
  if p.ethnicity_disclosure.getD false then
    find_index (fun opt => pyIn (pyLower (p.ethnicity.getD "")) opt) options
  else
    find_index (fun opt => pyIn "prefer not" opt || pyIn "decline" opt) options

def veteranPolicy (p : Profile) (options : List String) : Option Nat :=
  let is_veteran := p.veteran.getD false
  find_index
    (fun opt =>
      if is_veteran then pyIn "yes" opt else pyIn "no" opt || pyIn "not" opt)
    options

def disabilityPolicy (_p : Profile) (options : List String) : Option Nat :=
  find_index (fun opt => pyIn "prefer not" opt || pyIn "decline" opt) options

/- Radio policies (`handle_radio_buttons`): each option's text is lowered at
the comparison (`option.text.lower()`), so these take the raw option texts. -/

def radioTargetPolicy (target : String) (options : List String) : Option Nat :=
  find_index (fun opt => pyIn target (pyLower opt)) options

def radioWorkAuthPolicy (p : Profile) (options : List String) : Option Nat :=
  radioTargetPolicy (if p.work_authorized.getD true then "yes" else "no") options

def radioRelocationPolicy (p : Profile) (options : List String) : Option Nat :=
  radioTargetPolicy (if p.willing_to_relocate.getD true then "yes" else "no") options

def radioRemotePolicy (p : Profile) (options : List String) : Option Nat :=
  radioTargetPolicy (if p.open_to_remote.getD true then "yes" else "no") options

/-- The ordered `if` blocks of `handle_dropdown`, as (matcher, policy) pairs
in source order: education, work authorization, visa, gender,
race/ethnicity, veteran, disability. -/
def dropdownRules (p : Profile) : List ((String → Bool) × (List String → Option Nat)) :=
  [(matchEducation, educationPolicy p),
   (matchWorkAuth, workAuthPolicy p),
   (matchVisa, visaPolicy p),
   (matchGender, genderPolicy p),
   (matchEthnicity, ethnicityPolicy p),
   (matchVeteran, veteranPolicy p),
   (matchDisability, disabilityPolicy p)]

/-- The ordered `if` blocks of `handle_radio_buttons`, in source order. -/
def radioRules (p : Profile) : List ((String → Bool) × (List String → Option Nat)) :=
  [(matchWorkAuth, radioWorkAuthPolicy p),
   (matchRelocation, radioRelocationPolicy p),
   (matchRemote, radioRemotePolicy p)]

/-- Run a sequence of `if`-guarded blocks: each block whose keyword matcher
fires runs its policy and returns on a selection (`select_by_index` +
`return True` in the source); a block that selects nothing falls through to
the next one. -/
def scanRules (q : String) (options : List String) :
    List ((String → Bool) × (List String → Option Nat)) → Option Nat
  | [] => none
  | r :: rest =>
    match (if r.1 q then r.2 options else none) with
    | some i => some i
    | none => scanRules q options rest

/-- `handle_dropdown`: lower the question and all option texts once, then run
the guarded blocks; the result is the index passed to `select_by_index`
(`none` = the function falls off the end returning `False`, no selection). -/
def handle_dropdown (p : Profile) (question_text : String) (optionTexts : List String) :
    Option Nat :=
  scanRules (pyLower question_text) (optionTexts.map pyLower) (dropdownRules p)

/-- `handle_radio_buttons`: same guarded-block shape over the radio rules;
the result is the index of the clicked radio option. -/
def handle_radio_buttons (p : Profile) (question_text : String) (options : List String) :
    Option Nat :=
  scanRules (pyLower question_text) options (radioRules p)

/-- The `yes_keywords` list of `handle_yes_no_question`, in source order. -/
def yes_keywords : List String :=
  ["authorized to work", "eligible to work", "legally authorized", "able to work",
   "willing to relocate", "available to start", "comfortable with"]

/-- The `no_keywords` list of `handle_yes_no_question`, in source order. -/
def no_keywords : List String :=
  ["require sponsorship", "need visa", "criminal record", "been terminated"]

/-- `handle_yes_no_question`: scan the lower-cased question against the yes
phrases (return `True` on a hit), then the no phrases (return `False` on a
hit), and default to `True`. -/
def handle_yes_no_question (question_text : String) : Bool :=
  let question_lower := pyLower question_text
  if yes_keywords.any (fun k => pyIn k question_lower) then true
  else if no_keywords.any (fun k => pyIn k question_lower) then false
  else true

/-! ## Field dispatcher (`fill_linkedin_easy_apply`, per-control part) -/

/-- An action the dispatcher reports to the page-automation layer: type a
value into a field, or select/click the option at an index. -/
inductive FieldAction
  | setValue (v : String)
  | selectOption (i : Nat)
  deriving DecidableEq, Repr

/-- The categories distinguished by the text-field `if/elif` chain. -/
inductive TextFieldCat
  | phone
  | yearsExperience
  | linkedinUrl
  | portfolioUrl
  | githubUrl
  | unclassified
  deriving DecidableEq, Repr

/-- The text-field `if/elif` chain of `fill_linkedin_easy_apply`, applied to
the already lower-cased label text: phone, then year AND experience
(conjunctive), then linkedin, website/portfolio, github. -/
def classifyTextField (label_text : String) : TextFieldCat :=
  if pyIn "phone" label_text then .phone
  else if pyIn "year" label_text && pyIn "experience" label_text then .yearsExperience
  else if pyIn "linkedin" label_text then .linkedinUrl
  else if pyIn "website" label_text || pyIn "portfolio" label_text then .portfolioUrl
  else if pyIn "github" label_text then .githubUrl
  else .unclassified

/-- The value typed by the branch selected for a text field; `none` when no
branch fires (the field is left alone). -/
def textFieldAction (p : Profile) (label_text : String) : Option FieldAction :=
  match classifyTextField label_text with
  | .phone => some (.setValue (handle_phone_number p))
  | .yearsExperience => some (.setValue (handle_years_experience p label_text))
  | .linkedinUrl => some (.setValue (p.linkedin_url.getD ""))
  | .portfolioUrl => some (.setValue (p.portfolio_url.getD ""))
  | .githubUrl => some (.setValue (p.github_url.getD ""))
  | .unclassified => none

/-- A text input as the dispatcher sees it: its current value and the text
of its associated label (`""` when no label element is found). -/
structure TextField where
  value : String
  label : String
  deriving DecidableEq, Repr

/-- A `<select>` control: its label text, option texts, and current value. -/
structure DropdownControl where
  label : String
  options : List String
  value : String
  deriving DecidableEq, Repr

/-- A radio `fieldset`: its `legend` text and the radio options' texts. -/
structure RadioGroup where
  legend : String
  options : List String
  deriving DecidableEq, Repr

/-- One page of form controls, in document order per kind (the source walks
text fields, then dropdowns, then radio fieldsets). -/
structure Page where
  textFields : List TextField
  dropdowns : List DropdownControl
  radioGroups : List RadioGroup
  deriving Repr

/-- Per text field: `if field.get_attribute('value'): continue` — a field
holding a non-empty value is skipped; otherwise the label is lower-cased and
the `if/elif` chain runs. -/
def dispatchTextField (p : Profile) (f : TextField) : Option FieldAction :=
  if f.value = "" then textFieldAction p (pyLower f.label)
  else none

/-- Per dropdown: the source passes the label straight to `handle_dropdown`
without ever reading the dropdown's current value. -/
def dispatchDropdown (p : Profile) (d : DropdownControl) : Option FieldAction :=
  (handle_dropdown p d.label d.options).map FieldAction.selectOption

/-- Per radio group: the legend text goes to `handle_radio_buttons`; the
clicked option is reported by index.  No current-value check either. -/
def dispatchRadio (p : Profile) (g : RadioGroup) : Option FieldAction :=
  (handle_radio_buttons p g.legend g.options).map FieldAction.selectOption

/-- All actions the dispatcher issues for one page, in the order the source
visits the controls. -/
def dispatchPage (p : Profile) (pg : Page) : List FieldAction :=
  pg.textFields.filterMap (dispatchTextField p)
    ++ pg.dropdowns.filterMap (dispatchDropdown p)
    ++ pg.radioGroups.filterMap (dispatchRadio p)

/-! ## Page-navigation loops

`fill_linkedin_easy_apply` probes, per page, for a continue/next button,
then a review button, then a submit button; `apply_to_job` in
`job_monitor.py` probes for a next button, then a submit button.  A flow is
modelled as the sequence of pages the loop visits (`Nat → _`, 1-based), and
the buttons clicked are collected as commands. -/

/-- Which of the three probed buttons exist on a page of the primary flow. -/
structure PageButtons where
  hasContinue : Bool
  hasReview : Bool
  hasSubmit : Bool
  deriving DecidableEq, Repr

/-- A navigation command issued to the page-automation layer. -/
inductive NavCmd
  | clickContinue
  | clickReview
  | clickSubmit
  deriving DecidableEq, Repr

/-- The `while page_count < max_pages` loop of `fill_linkedin_easy_apply`,
with the remaining iteration budget as fuel.  Each iteration: continue/next
found → click and loop; else review found → click and loop; else submit
found → `(True, "Applied")` after clicking if `auto_submit`, else
`(True, "Ready to Submit - Confirmation Required")` without clicking; else
the `break` falls through to the same `(False, "Max Pages Reached")` return
that ends an exhausted loop. -/
def easyApplyPages (auto_submit : Bool) (flow : Nat → PageButtons) :
    Nat → Nat → (Bool × String) × List NavCmd
  | _, 0 => ((false, "Max Pages Reached"), [])
  | page, fuel + 1 =>
    let pg := flow page
    if pg.hasContinue then
      let r := easyApplyPages auto_submit flow (page + 1) fuel
      (r.1, NavCmd.clickContinue :: r.2)
    else if pg.hasReview then
      let r := easyApplyPages auto_submit flow (page + 1) fuel
      (r.1, NavCmd.clickReview :: r.2)
    else if pg.hasSubmit then
      if auto_submit then ((true, "Applied"), [NavCmd.clickSubmit])
      else ((true, "Ready to Submit - Confirmation Required"), [])
    else ((false, "Max Pages Reached"), [])

/-- `fill_linkedin_easy_apply`'s navigation: `max_pages = 10`, auto-submit
read from `profile.get('auto_submit', False)`.  Result: the returned
`(success, status)` pair and the buttons clicked. -/
def fill_linkedin_easy_apply (p : Profile) (flow : Nat → PageButtons) :
    (Bool × String) × List NavCmd :=
  easyApplyPages (p.auto_submit.getD false) flow 1 10

/-- Which buttons exist on a page of the secondary flow
(`JobMonitor.apply_to_job`): a "Continue to next step" button and a
"Submit application" button. -/
structure MonitorPage where
  hasNext : Bool
  hasSubmit : Bool
  deriving DecidableEq, Repr

/-- The `for page in range(max_pages)` loop of `apply_to_job`: next button
found → click and loop; else submit found → if `confirm_before_submit`
(default true) stop without clicking, else click and set the job's status to
`'Applied'`; else break.  The job's status starts as `'Found'` and is the
first component of the result. -/
def applyToJobPages (confirm_before_submit : Bool) (flow : Nat → MonitorPage) :
    Nat → Nat → String × List NavCmd
  | _, 0 => ("Found", [])
  | page, fuel + 1 =>
    let pg := flow page
    if pg.hasNext then
      let r := applyToJobPages confirm_before_submit flow (page + 1) fuel
      (r.1, NavCmd.clickContinue :: r.2)
    else if pg.hasSubmit then
      if confirm_before_submit then ("Found", [])
      else ("Applied", [NavCmd.clickSubmit])
    else ("Found", [])

/-- `apply_to_job`'s navigation: `max_pages = 5`. -/
def apply_to_job (confirm_before_submit : Bool) (flow : Nat → MonitorPage) :
    String × List NavCmd :=
  applyToJobPages confirm_before_submit flow 1 5

/-! ## Helper lemmas -/

/-- The empty string is a substring of every character list. -/
theorem infixOf_nil_left (l : List Char) : infixOf [] l = true := by
  cases l <;> simp [infixOf, List.isPrefixOf]

/-- Python: `'' in s` is always true. -/
theorem pyIn_empty (s : String) : pyIn "" s = true := by
  have h : ("" : String).toList = [] := rfl
  unfold pyIn
  rw [h]
  exact infixOf_nil_left s.toList

/-- Lower-casing the empty string gives the empty string. -/
theorem pyLower_empty : pyLower "" = "" := rfl

/-- A guarded block that selects an option ends the scan with its index. -/
theorem scanRules_cons_some {q : String} {options : List String}
    {r : (String → Bool) × (List String → Option Nat)}
    {rest : List ((String → Bool) × (List String → Option Nat))} {k : Nat}
    (h : (if r.1 q then r.2 options else none) = some k) :
    scanRules q options (r :: rest) = some k := by
  simp [scanRules, h]

/-- A guarded block that selects nothing falls through to the next block. -/
theorem scanRules_cons_none {q : String} {options : List String}
    {r : (String → Bool) × (List String → Option Nat)}
    {rest : List ((String → Bool) × (List String → Option Nat))}
    (h : (if r.1 q then r.2 options else none) = none) :
    scanRules q options (r :: rest) = scanRules q options rest := by
  simp [scanRules, h]

/-- A single remaining guarded block behaves as its own guard-and-policy. -/
theorem scanRules_singleton (q : String) (options : List String)
    (r : (String → Bool) × (List String → Option Nat)) :
    scanRules q options [r] = (if r.1 q then r.2 options else none) := by
  cases h : (if r.1 q then r.2 options else none) <;> simp [scanRules, h]

/-- The scan returns the index selected by the first rule whose guarded
policy selects one, provided every earlier guarded block selects nothing. -/
theorem scanRules_first_hit (q : String) (options : List String)
    (rules : List ((String → Bool) × (List String → Option Nat))) (i k : Nat)
    (hi : i < rules.length)
    (hprev : (rules.take i).all
      (fun r => (if r.1 q then r.2 options else none).isNone) = true)
    (hsel : (if (rules.get ⟨i, hi⟩).1 q
        then (rules.get ⟨i, hi⟩).2 options else none) = some k) :
    scanRules q options rules = some k := by
  induction rules generalizing i with
  | nil => simp at hi
  | cons r rest ih =>
    cases i with
    | zero => exact scanRules_cons_some hsel
    | succ n =>
      rw [List.take_succ_cons, List.all_cons, Bool.and_eq_true] at hprev
      have ha : (if r.1 q then r.2 options else none) = none :=
        Option.isNone_iff_eq_none.mp hprev.1
      rw [scanRules_cons_none ha]
      exact ih n (Nat.lt_of_succ_lt_succ hi) hprev.2 hsel

/-- `find_index` returns 0 when the head already satisfies the predicate. -/
theorem find_index_cons_true {pred : String → Bool} {o : String} {rest : List String}
    (h : pred o = true) : find_index pred (o :: rest) = some 0 := by
  simp [find_index, h]

/-- A `filterMap` whose function returns `none` on every element is empty. -/
theorem filterMap_eq_nil_of_none {α β : Type} (f : α → Option β) (l : List α)
    (h : ∀ a ∈ l, f a = none) : l.filterMap f = [] := by
  induction l with
  | nil => rfl
  | cons a rest ih =>
    rw [List.filterMap_cons, h a (List.mem_cons_self a rest)]
    exact ih (fun b hb => h b (List.mem_cons_of_mem a hb))

/-- One loop iteration of the primary flow when a continue button exists. -/
theorem easyApplyPages_continue_step (auto : Bool) (flow : Nat → PageButtons)
    (page fuel : Nat) (h : (flow page).hasContinue = true) :
    easyApplyPages auto flow page (fuel + 1)
      = ((easyApplyPages auto flow (page + 1) fuel).1,
         NavCmd.clickContinue :: (easyApplyPages auto flow (page + 1) fuel).2) := by
  simp [easyApplyPages, h]

/-- One loop iteration of the primary flow when only a submit button exists. -/
theorem easyApplyPages_submit_step (auto : Bool) (flow : Nat → PageButtons)
    (page fuel : Nat) (hc : (flow page).hasContinue = false)
    (hr : (flow page).hasReview = false) (hs : (flow page).hasSubmit = true) :
    easyApplyPages auto flow page (fuel + 1)
      = if auto then ((true, "Applied"), [NavCmd.clickSubmit])
        else ((true, "Ready to Submit - Confirmation Required"), []) := by
  simp [easyApplyPages, hc, hr, hs]

/-- A flow whose every page offers a continue button runs the loop to fuel
exhaustion: one continue click per page, then the max-pages return. -/
theorem easyApplyPages_allContinue (auto : Bool) (flow : Nat → PageButtons)
    (h : ∀ n, (flow n).hasContinue = true) :
    ∀ fuel page, easyApplyPages auto flow page fuel
      = ((false, "Max Pages Reached"), List.replicate fuel NavCmd.clickContinue) := by
  intro fuel
  induction fuel with
  | zero => intro page; rfl
  | succ n ih =>
    intro page
    rw [easyApplyPages_continue_step auto flow page n (h page), ih (page + 1)]
    rfl

/-- One loop iteration of the secondary flow when a next button exists. -/
theorem applyToJobPages_next_step (confirm : Bool) (flow : Nat → MonitorPage)
    (page fuel : Nat) (h : (flow page).hasNext = true) :
    applyToJobPages confirm flow page (fuel + 1)
      = ((applyToJobPages confirm flow (page + 1) fuel).1,
         NavCmd.clickContinue :: (applyToJobPages confirm flow (page + 1) fuel).2) := by
  simp [applyToJobPages, h]

/-- The secondary loop on an all-next flow: one click per iteration until
the `range(max_pages)` budget runs out, status left unchanged. -/
theorem applyToJobPages_allNext (confirm : Bool) (flow : Nat → MonitorPage)
    (h : ∀ n, (flow n).hasNext = true) :
    ∀ fuel page, applyToJobPages confirm flow page fuel
      = ("Found", List.replicate fuel NavCmd.clickContinue) := by
  intro fuel
  induction fuel with
  | zero => intro page; rfl
  | succ n ih =>
    intro page
    rw [applyToJobPages_next_step confirm flow page n (h page), ih (page + 1)]
    rfl

/-! ## Claims -/

/-- Claim C1, counterexample: with options `["Yes", "No", "I don't wish to
answer"]` the disability-status resolver selects nothing — the third
option's text contains neither "prefer not" nor "decline" — rather than
index 2 as claimed. -/
theorem C1_counterexample :
    handle_dropdown Profile.empty "Disability status"
        ["Yes", "No", "I don\x27t wish to answer"] ≠ some 2
    ∧ handle_dropdown Profile.empty "Disability status"
        ["Yes", "No", "I don\x27t wish to answer"] = none := by decide

/-- Claim C1 as amended: for every profile and options list, a dropdown
whose label matches the disability rule (and none of the six earlier rules)
selects the first option whose lower-cased text contains "prefer not" or
"decline", regardless of profile content; with options
`["Yes", "No", "I don't wish to answer"]` nothing is selected (Skip). -/
theorem C1_amended (p : Profile) (label : String)
    (hdis : matchDisability (pyLower label) = true)
    (h1 : matchEducation (pyLower label) = false)
    (h2 : matchWorkAuth (pyLower label) = false)
    (h3 : matchVisa (pyLower label) = false)
    (h4 : matchGender (pyLower label) = false)
    (h5 : matchEthnicity (pyLower label) = false)
    (h6 : matchVeteran (pyLower label) = false) :
    (∀ opts : List String, handle_dropdown p label opts
        = find_index (fun opt => pyIn "prefer not" opt || pyIn "decline" opt)
            (opts.map pyLower))
    ∧ handle_dropdown p label ["Yes", "No", "I don\x27t wish to answer"] = none := by
  have hgen : ∀ opts : List String, handle_dropdown p label opts
      = find_index (fun opt => pyIn "prefer not" opt || pyIn "decline" opt)
          (opts.map pyLower) := by
    intro opts
    unfold handle_dropdown dropdownRules
    rw [scanRules_cons_none (by simp [h1]), scanRules_cons_none (by simp [h2]),
        scanRules_cons_none (by simp [h3]), scanRules_cons_none (by simp [h4]),
        scanRules_cons_none (by simp [h5]), scanRules_cons_none (by simp [h6]),
        scanRules_singleton]
    simp [hdis, disabilityPolicy]
  refine ⟨hgen, ?_⟩
  rw [hgen ["Yes", "No", "I don\x27t wish to answer"]]
  decide

/-- Witness for `C1_amended`: on the label "Disability status" with options
`["Yes", "No", "Prefer not to say"]` the resolver selects index 2. -/
theorem C1_amended_witness :
    handle_dropdown Profile.empty "Disability status"
      ["Yes", "No", "Prefer not to say"] = some 2 := by
  have h := C1_amended Profile.empty "Disability status" (by decide) (by decide)
    (by decide) (by decide) (by decide) (by decide) (by decide)
  rw [h.1 ["Yes", "No", "Prefer not to say"]]
  decide

/-- Claim C2, counterexample: "Do you require visa sponsorship?" yields
`True`, not `False` — the phrase "require sponsorship" is not a contiguous
substring of "do you require visa sponsorship?" and no other no-phrase (or
yes-phrase) matches, so the ambiguous default `True` applies. -/
theorem C2_counterexample :
    handle_yes_no_question "Do you require visa sponsorship?" = true := by decide

/-- Claim C2 as amended: the resolver returns false exactly when no
default-yes phrase and some default-no phrase occurs in the lower-cased
label (so yes-phrases take priority and unmatched labels default to true);
"Are you legally authorized to work in this country?" yields true,
"Do you require visa sponsorship?" yields true (ambiguous default — no
phrase matches contiguously), and "Do you enjoy puzzles?" yields true. -/
theorem C2_amended :
    (∀ q : String, handle_yes_no_question q = false ↔
        (yes_keywords.any (fun k => pyIn k (pyLower q)) = false
          ∧ no_keywords.any (fun k => pyIn k (pyLower q)) = true))
    ∧ handle_yes_no_question "Are you legally authorized to work in this country?" = true
    ∧ handle_yes_no_question "Do you require visa sponsorship?" = true
    ∧ handle_yes_no_question "Do you enjoy puzzles?" = true := by
  refine ⟨?_, by decide, by decide, by decide⟩
  intro q
  unfold handle_yes_no_question
  cases hyes : yes_keywords.any (fun k => pyIn k (pyLower q)) <;>
    cases hno : no_keywords.any (fun k => pyIn k (pyLower q)) <;>
      simp [hyes, hno]

/-- Witness for `C2_amended`: "Do you require sponsorship?" does contain a
no-phrase contiguously (and no yes-phrase), so the resolver returns false. -/
theorem C2_amended_witness :
    handle_yes_no_question "Do you require sponsorship?" = false :=
  (C2_amended.1 "Do you require sponsorship?").mpr (by decide)

/-- The profile of the C3 example with the `python_years` key present. -/
def profileWithPython : Profile :=
  { python_years := some 4, total_years_experience := some 6 }

/-- The profile of the C3 example without the `python_years` key. -/
def profileNoPython : Profile :=
  { total_years_experience := some 6 }

/-- Claim C3, counterexample: with no `python_years` key the resolver fills
"2" — the hard-coded default of the `python` entry of `experience_map` —
not the total count "6": the `python` sub-domain still matches the label, so
the total-count fallback is never consulted. -/
theorem C3_counterexample :
    handle_years_experience profileNoPython "How many years of python experience?" ≠ "6"
    ∧ handle_years_experience profileNoPython "How many years of python experience?" = "2" := by
  decide

/-- Claim C3 as amended: with `{python_years: 4, total_years_experience: 6}`
the label "How many years of python experience?" resolves to "4"; the same
call on a profile lacking the `python_years` key resolves to "2", the
built-in default of the `python` sub-domain (not the total count). -/
theorem C3_amended :
    handle_years_experience profileWithPython "How many years of python experience?" = "4"
    ∧ handle_years_experience profileNoPython "How many years of python experience?" = "2" := by
  decide

/-- Claim C4, counterexample: on the label "Education visa" with options
`["Citizen"]` the education rule's keywords match first, its policy selects
no option ("bachelor" occurs in no option), and yet the later visa rule
selects index 0 — so matching is not first-keyword-match-wins. -/
theorem C4_counterexample :
    matchEducation (pyLower "Education visa") = true
    ∧ educationPolicy Profile.empty (["Citizen"].map pyLower) = none
    ∧ matchVisa (pyLower "Education visa") = true
    ∧ visaPolicy Profile.empty (["Citizen"].map pyLower) = some 0
    ∧ handle_dropdown Profile.empty "Education visa" ["Citizen"] = some 0 := by decide

/-- Claim C4 as amended: matching is first-successful-rule-wins over the
ordered rule lists (dropdowns: education > work-authorization > visa >
gender > ethnicity > veteran > disability; radio groups:
work-authorization > relocation > remote): the selected option comes from
the first rule whose keywords match AND whose policy selects an option,
while a rule whose keywords match but whose policy selects nothing falls
through to later rules. -/
theorem C4_amended :
    (∀ (p : Profile) (label : String) (opts : List String) (i k : Nat)
        (hi : i < (dropdownRules p).length),
      ((dropdownRules p).take i).all
          (fun r => (if r.1 (pyLower label) then r.2 (opts.map pyLower) else none).isNone)
        = true →
      (if ((dropdownRules p).get ⟨i, hi⟩).1 (pyLower label)
          then ((dropdownRules p).get ⟨i, hi⟩).2 (opts.map pyLower) else none) = some k →
      handle_dropdown p label opts = some k)
    ∧ (∀ (p : Profile) (label : String) (opts : List String) (i k : Nat)
        (hi : i < (radioRules p).length),
      ((radioRules p).take i).all
          (fun r => (if r.1 (pyLower label) then r.2 opts else none).isNone) = true →
      (if ((radioRules p).get ⟨i, hi⟩).1 (pyLower label)
          then ((radioRules p).get ⟨i, hi⟩).2 opts else none) = some k →
      handle_radio_buttons p label opts = some k) := by
  constructor
  · intro p label opts i k hi hprev hsel
    exact scanRules_first_hit _ _ _ i k hi hprev hsel
  · intro p label opts i k hi hprev hsel
    exact scanRules_first_hit _ _ _ i k hi hprev hsel

/-- Witness for `C4_amended`: the visa rule (index 2, earlier rules
selecting nothing) selects option 1 of a visa-status dropdown, and the
relocation rule (index 1) selects option 0 of a relocation radio group. -/
theorem C4_amended_witness :
    handle_dropdown Profile.empty "visa status" ["Permanent Resident", "Citizen"] = some 1
    ∧ handle_radio_buttons Profile.empty "Willing to relocate?" ["Yes", "No"] = some 0 :=
  ⟨C4_amended.1 Profile.empty "visa status" ["Permanent Resident", "Citizen"] 2 1
      (by decide) (by decide) (by decide),
   C4_amended.2 Profile.empty "Willing to relocate?" ["Yes", "No"] 1 0
      (by decide) (by decide) (by decide)⟩

/-- A flow whose pages expose no continue, review, or submit control. -/
def noControlsFlow : Nat → PageButtons := fun _ => ⟨false, false, false⟩

/-- Claim C5: when no page control is found, the loop's `break` was meant as
completion (the source comments "we might be done"), but control falls into
the `return (False, "Max Pages Reached")` that follows the loop: the run is
reported as the page-ceiling failure after a single page, not as a
successful Done. -/
theorem C5_break_returns_max_pages :
    fill_linkedin_easy_apply Profile.empty noControlsFlow
      = ((false, "Max Pages Reached"), []) := by decide

/-- Claim C6, counterexample: a page whose every control already carries a
value still produces an action — the dropdown branch never reads the
control's current value, so the already-answered disability dropdown is
re-selected (index 0). -/
theorem C6_counterexample :
    (∀ f ∈ (Page.mk [⟨"2125550100", "Phone"⟩]
        [⟨"Disability status", ["Prefer not to say", "Yes", "No"], "Prefer not to say"⟩]
        []).textFields, f.value ≠ "")
    ∧ (∀ d ∈ (Page.mk [⟨"2125550100", "Phone"⟩]
        [⟨"Disability status", ["Prefer not to say", "Yes", "No"], "Prefer not to say"⟩]
        []).dropdowns, d.value ≠ "")
    ∧ dispatchPage Profile.empty
        (Page.mk [⟨"2125550100", "Phone"⟩]
          [⟨"Disability status", ["Prefer not to say", "Yes", "No"], "Prefer not to say"⟩]
          [])
        = [FieldAction.selectOption 0] := by decide

/-- Claim C6 as amended: the dispatcher skips only text fields that already
carry a non-empty value; dropdowns and radio groups are dispatched
regardless of their current value.  A pass over a page whose text fields all
hold values therefore issues no `SetValue` action at all — every emitted
action is a `SelectOption` from the dropdown/radio handlers, which may
repeat on a second pass. -/
theorem C6_amended (p : Profile) (pg : Page)
    (hfilled : ∀ f ∈ pg.textFields, f.value ≠ "") :
    dispatchPage p pg
      = pg.dropdowns.filterMap (dispatchDropdown p)
        ++ pg.radioGroups.filterMap (dispatchRadio p)
    ∧ ∀ a ∈ dispatchPage p pg, ∀ v, a ≠ FieldAction.setValue v := by
  have htext : pg.textFields.filterMap (dispatchTextField p) = [] :=
    filterMap_eq_nil_of_none _ _ (fun f hf => by
      unfold dispatchTextField
      rw [if_neg (hfilled f hf)])
  have hmain : dispatchPage p pg
      = pg.dropdowns.filterMap (dispatchDropdown p)
        ++ pg.radioGroups.filterMap (dispatchRadio p) := by
    unfold dispatchPage
    rw [htext, List.nil_append]
  refine ⟨hmain, ?_⟩
  intro a ha v
  rw [hmain] at ha
  rcases List.mem_append.mp ha with hmem | hmem
  · rcases List.mem_filterMap.mp hmem with ⟨d, _, hd⟩
    unfold dispatchDropdown at hd
    rcases Option.map_eq_some'.mp hd with ⟨i, _, hi⟩
    rw [← hi]
    simp
  · rcases List.mem_filterMap.mp hmem with ⟨g, _, hg⟩
    unfold dispatchRadio at hg
    rcases Option.map_eq_some'.mp hg with ⟨i, _, hi⟩
    rw [← hi]
    simp

/-- Witness for `C6_amended`: a page with a filled phone field and an
unanswered disability dropdown produces only the dropdown selection. -/
theorem C6_amended_witness :
    dispatchPage Profile.empty
        (Page.mk [⟨"2125550100", "Phone"⟩]
          [⟨"Disability status", ["Prefer not to say", "Yes", "No"], ""⟩] [])
      = [FieldAction.selectOption 0] := by
  have h := (C6_amended Profile.empty
    (Page.mk [⟨"2125550100", "Phone"⟩]
      [⟨"Disability status", ["Prefer not to say", "Yes", "No"], ""⟩] [])
    (by decide)).1
  rw [h]
  decide

/-- Claim C7: on a 3-page flow whose first two pages expose only a Continue
control and whose third exposes only a Submit control, with auto-submit
disabled, the run ends ready-to-submit (at page 3) having clicked Continue
exactly twice and Submit never. -/
theorem C7_three_page_flow (p : Profile) (flow : Nat → PageButtons)
    (hauto : p.auto_submit.getD false = false)
    (h1 : flow 1 = ⟨true, false, false⟩) (h2 : flow 2 = ⟨true, false, false⟩)
    (h3 : flow 3 = ⟨false, false, true⟩) :
    fill_linkedin_easy_apply p flow
      = ((true, "Ready to Submit - Confirmation Required"),
         [NavCmd.clickContinue, NavCmd.clickContinue]) := by
  unfold fill_linkedin_easy_apply
  rw [hauto]
  rw [show (10 : Nat) = 9 + 1 from rfl,
      easyApplyPages_continue_step false flow 1 9 (by rw [h1]),
      show (9 : Nat) = 8 + 1 from rfl,
      easyApplyPages_continue_step false flow 2 8 (by rw [h2]),
      show (8 : Nat) = 7 + 1 from rfl,
      easyApplyPages_submit_step false flow 3 7 (by rw [h3]) (by rw [h3]) (by rw [h3])]
  rfl

/-- A concrete 3-page flow: Continue on pages 1-2, Submit from page 3 on. -/
def threePageFlow : Nat → PageButtons := fun n =>
  if n ≤ 2 then ⟨true, false, false⟩ else ⟨false, false, true⟩

/-- Witness for `C7_three_page_flow` at the concrete 3-page flow. -/
theorem C7_three_page_flow_witness :
    fill_linkedin_easy_apply Profile.empty threePageFlow
      = ((true, "Ready to Submit - Confirmation Required"),
         [NavCmd.clickContinue, NavCmd.clickContinue]) :=
  C7_three_page_flow Profile.empty threePageFlow (by decide) (by decide)
    (by decide) (by decide)

/-- Claim C8: a flow that always offers Continue and never Review/Submit
exhausts the page budget: the primary flow ends with `(False, "Max Pages
Reached")` after exactly 10 Continue clicks, the secondary `apply_to_job`
flow ends (status unchanged) after exactly 5 Continue clicks; in both cases
the command list is complete — nothing is issued after termination. -/
theorem C8_page_ceiling (p : Profile) (confirm : Bool)
    (flow : Nat → PageButtons) (mflow : Nat → MonitorPage)
    (h : ∀ n, flow n = ⟨true, false, false⟩)
    (hm : ∀ n, mflow n = ⟨true, false⟩) :
    fill_linkedin_easy_apply p flow
      = ((false, "Max Pages Reached"), List.replicate 10 NavCmd.clickContinue)
    ∧ apply_to_job confirm mflow
      = ("Found", List.replicate 5 NavCmd.clickContinue) := by
  constructor
  · unfold fill_linkedin_easy_apply
    exact easyApplyPages_allContinue _ flow (fun n => by rw [h n]) 10 1
  · unfold apply_to_job
    exact applyToJobPages_allNext confirm mflow (fun n => by rw [hm n]) 5 1

/-- Witness for `C8_page_ceiling` at the constant all-Continue flows. -/
theorem C8_page_ceiling_witness :
    fill_linkedin_easy_apply Profile.empty (fun _ => ⟨true, false, false⟩)
      = ((false, "Max Pages Reached"), List.replicate 10 NavCmd.clickContinue)
    ∧ apply_to_job true (fun _ => ⟨true, false⟩)
      = ("Found", List.replicate 5 NavCmd.clickContinue) :=
  C8_page_ceiling Profile.empty true _ _ (fun _ => rfl) (fun _ => rfl)

/-- Claim C9, counterexample: the label "Years of phone experience" contains
both "year" and "experience", yet it is classified `phone` — the phone rule
has higher priority — so not every such label classifies years-experience. -/
theorem C9_counterexample :
    pyIn "year" (pyLower "Years of phone experience") = true
    ∧ pyIn "experience" (pyLower "Years of phone experience") = true
    ∧ classifyTextField (pyLower "Years of phone experience") ≠ TextFieldCat.yearsExperience
    ∧ classifyTextField (pyLower "Years of phone experience") = TextFieldCat.phone := by
  decide

/-- Claim C9 as amended: every label containing both "year" and "experience"
(any case, any order) and not containing "phone" classifies as
years-experience (conjunctive matching); a label without "year" is never
classified years-experience, however it otherwise reads. -/
theorem C9_amended (label : String) :
    (pyIn "year" (pyLower label) = true → pyIn "experience" (pyLower label) = true →
      pyIn "phone" (pyLower label) = false →
      classifyTextField (pyLower label) = TextFieldCat.yearsExperience)
    ∧ (pyIn "year" (pyLower label) = false →
      classifyTextField (pyLower label) ≠ TextFieldCat.yearsExperience) := by
  constructor
  · intro hy he hp
    unfold classifyTextField
    rw [hp, hy, he]
    simp
  · intro hy
    unfold classifyTextField
    cases hp : pyIn "phone" (pyLower label) <;>
      cases hl : pyIn "linkedin" (pyLower label) <;>
        cases hw : pyIn "website" (pyLower label) <;>
          cases hpo : pyIn "portfolio" (pyLower label) <;>
            cases hgh : pyIn "github" (pyLower label) <;>
              simp [hy, hp, hl, hw, hpo, hgh]

/-- Witness for `C9_amended`: "Years of relevant experience" classifies as
years-experience; "Relevant experience summary" (no "year") does not. -/
theorem C9_amended_witness :
    classifyTextField (pyLower "Years of relevant experience") = TextFieldCat.yearsExperience
    ∧ classifyTextField (pyLower "Relevant experience summary") ≠ TextFieldCat.yearsExperience :=
  ⟨(C9_amended "Years of relevant experience").1 (by decide) (by decide) (by decide),
   (C9_amended "Relevant experience summary").2 (by decide)⟩

/-- Claim C10: with the gender (resp. ethnicity) disclosure flag set but the
corresponding value key absent, `profile.get` returns the empty string,
which is a substring of every option text, so the gender (resp. ethnicity)
rule selects index 0 of any non-empty dropdown. -/
theorem C10_empty_disclosure_selects_first (p : Profile)
    (glabel elabel : String) (opts : List String) (hne : opts ≠ [])
    (hg : p.gender_disclosure = some true) (hgv : p.gender = none)
    (he : p.ethnicity_disclosure = some true) (hev : p.ethnicity = none)
    (hgm : matchGender (pyLower glabel) = true)
    (hg1 : matchEducation (pyLower glabel) = false)
    (hg2 : matchWorkAuth (pyLower glabel) = false)
    (hg3 : matchVisa (pyLower glabel) = false)
    (hem : matchEthnicity (pyLower elabel) = true)
    (he1 : matchEducation (pyLower elabel) = false)
    (he2 : matchWorkAuth (pyLower elabel) = false)
    (he3 : matchVisa (pyLower elabel) = false)
    (he4 : matchGender (pyLower elabel) = false) :
    handle_dropdown p glabel opts = some 0
    ∧ handle_dropdown p elabel opts = some 0 := by
  obtain ⟨o, rest, rfl⟩ : ∃ o rest, opts = o :: rest := by
    cases opts with
    | nil => exact absurd rfl hne
    | cons o rest => exact ⟨o, rest, rfl⟩
  constructor
  · unfold handle_dropdown dropdownRules
    rw [scanRules_cons_none (by simp [hg1]), scanRules_cons_none (by simp [hg2]),
        scanRules_cons_none (by simp [hg3])]
    refine scanRules_cons_some ?_
    have hpol : genderPolicy p (pyLower o :: List.map pyLower rest) = some 0 := by
      unfold genderPolicy
      rw [hg, hgv]
      simp [pyLower_empty, pyIn_empty, find_index]
    simp [hgm, hpol]
  · unfold handle_dropdown dropdownRules
    rw [scanRules_cons_none (by simp [he1]), scanRules_cons_none (by simp [he2]),
        scanRules_cons_none (by simp [he3]), scanRules_cons_none (by simp [he4])]
    refine scanRules_cons_some ?_
    have hpol : ethnicityPolicy p (pyLower o :: List.map pyLower rest) = some 0 := by
      unfold ethnicityPolicy
      rw [he, hev]
      simp [pyLower_empty, pyIn_empty, find_index]
    simp [hem, hpol]

/-- Witness for `C10_empty_disclosure_selects_first`: both disclosure flags
set, both value keys absent, labels "Gender" and "Ethnicity", options
`["Female", "Male"]` — index 0 is selected in both dropdowns. -/
theorem C10_empty_disclosure_selects_first_witness :
    handle_dropdown
        { Profile.empty with gender_disclosure := some true,
                             ethnicity_disclosure := some true }
        "Gender" ["Female", "Male"] = some 0
    ∧ handle_dropdown
        { Profile.empty with gender_disclosure := some true,
                             ethnicity_disclosure := some true }
        "Ethnicity" ["Female", "Male"] = some 0 :=
  C10_empty_disclosure_selects_first
    { Profile.empty with gender_disclosure := some true,
                         ethnicity_disclosure := some true }
    "Gender" "Ethnicity" ["Female", "Male"] (by decide) rfl rfl rfl rfl
    (by decide) (by decide) (by decide) (by decide)
    (by decide) (by decide) (by decide) (by decide) (by decide)
